import Mathlib

/-!
Shallow embedding of the asynchronous-operation machinery of the
shakenfist client library (apiclient.py, util.py and
commandline/artifact.py), together with theorems that settle the
behavioural claims about it.

Time is modelled as an integer number of seconds that advances by one at
every `time.sleep(1)` call; network responses are supplied by oracle
functions indexed by the call count.
-/

namespace ShakenFistClient

/-- The async strategy constants defined at the top of apiclient.py. -/
def ASYNC_CONTINUE : String := "continue"

/-- The `pause` async strategy constant from apiclient.py. -/
def ASYNC_PAUSE : String := "pause"

/-- The `block` async strategy constant from apiclient.py. -/
def ASYNC_BLOCK : String := "block"

/-- What escapes `_calculate_async_deadline` for a strategy outside the
three known values.  The code attempts
`raise UnknownAsyncStrategy('Async strategy %s is unknown' % strategy)`
(apiclient.py:114), but `UnknownAsyncStrategy` inherits
`APIException.__init__` (apiclient.py:43), which requires `message,
method, url, status_code, text`; called with a single argument the
constructor itself fails, so what actually propagates is a `TypeError`,
never the intended `unknownAsyncStrategy` configuration error. -/
inductive DeadlineError where
  | unknownAsyncStrategy (message : String)
  | typeError (message : String)
deriving DecidableEq, Repr

/-- `_calculate_async_deadline` from apiclient.py.  It returns a duration in
seconds (an `Int`, since `continue` maps to the negative sentinel `-1`);
for any other string the attempted raise of `UnknownAsyncStrategy` fails
inside `APIException.__init__`, so the outcome is the `TypeError` from
that constructor call rather than the configuration error. -/
def calculateAsyncDeadline (strategy : String) : Except DeadlineError Int :=
  if strategy = ASYNC_CONTINUE then .ok (-1)
  else if strategy = ASYNC_PAUSE then .ok 60
  else if strategy = ASYNC_BLOCK then .ok 3600
  else .error (.typeError
    ("APIException.__init__() missing 4 required positional arguments: "
      ++ "method, url, status_code, and text"))

/-- The membership test `state not in ['initial', 'creating']` used by the
await loops of `Client.create_instance` and `Client.allocate_network`
(here in positive form: the state is still in progress). -/
def inProgressState (s : String) : Bool :=
  s == "initial" || s == "creating"

/-- The await loop at the end of `Client.create_instance` (apiclient.py).
`fetch j` is the snapshot returned by the j-th call to `get_instance`,
`i` is the snapshot currently held, `now` is the current time, `deadline`
the precomputed absolute deadline, and `k` is the number of fetches
performed so far (the snapshot from the initial POST counts as the
first).  The result pairs the returned snapshot with the total number of
fetches performed. -/
def createInstanceLoop (fetch : Nat → String) (i : String) (now deadline : Int)
    (k : Nat) : String × Nat :=
  if inProgressState i = false then (i, k)
  else if _h : now > deadline then (i, k)
  else createInstanceLoop fetch (fetch k) (now + 1) deadline (k + 1)
termination_by (deadline + 1 - now).toNat
decreasing_by omega

/-- The await loop at the end of `Client.allocate_network` (apiclient.py);
textually the same loop as the one in `Client.create_instance`, with
`get_network` as the re-fetch call. -/
def allocateNetworkLoop (fetch : Nat → String) (n : String) (now deadline : Int)
    (k : Nat) : String × Nat :=
  if inProgressState n = false then (n, k)
  else if _h : now > deadline then (n, k)
  else allocateNetworkLoop fetch (fetch k) (now + 1) deadline (k + 1)
termination_by (deadline + 1 - now).toNat
decreasing_by omega

/-- Unfolding lemma: a snapshot that is no longer in progress is returned
at once. -/
lemma createInstanceLoop_stop (fetch : Nat → String) (i : String)
    (now deadline : Int) (k : Nat) (h : inProgressState i = false) :
    createInstanceLoop fetch i now deadline k = (i, k) := by
  rw [createInstanceLoop]
  simp [h]

/-- Unfolding lemma: an in-progress snapshot before the deadline causes a
sleep and a re-fetch. -/
lemma createInstanceLoop_step (fetch : Nat → String) (i : String)
    (now deadline : Int) (k : Nat) (h : inProgressState i = true)
    (hd : now ≤ deadline) :
    createInstanceLoop fetch i now deadline k =
      createInstanceLoop fetch (fetch k) (now + 1) deadline (k + 1) := by
  rw [createInstanceLoop]
  simp [h]
  omega

/-- Unfolding lemma: an in-progress snapshot past the deadline is returned
as is. -/
lemma createInstanceLoop_deadline (fetch : Nat → String) (i : String)
    (now deadline : Int) (k : Nat) (h : inProgressState i = true)
    (hd : now > deadline) :
    createInstanceLoop fetch i now deadline k = (i, k) := by
  rw [createInstanceLoop]
  simp [h, hd]

/-- If, counting from fetch number `k`, the observation sequence `seq` is in
progress `N` times and then terminal, and there is time for `N` sleeps
before the deadline, the loop returns the terminal observation after
exactly `N` further fetches. -/
lemma createInstanceLoop_reaches_terminal :
    ∀ (N : Nat) (seq : Nat → String) (now deadline : Int) (k : Nat),
    1 ≤ k →
    (∀ j, j < N → inProgressState (seq (k - 1 + j)) = true) →
    inProgressState (seq (k - 1 + N)) = false →
    now + N ≤ deadline →
    createInstanceLoop seq (seq (k - 1)) now deadline k =
      (seq (k - 1 + N), k + N) := by
  intro N
  induction N with
  | zero =>
    intro seq now deadline k _hk _hin hterm _ht
    simpa using createInstanceLoop_stop seq (seq (k - 1)) now deadline k hterm
  | succ N ih =>
    intro seq now deadline k hk hin hterm ht
    have h0 : inProgressState (seq (k - 1)) = true := by
      have := hin 0 (Nat.succ_pos N)
      simpa using this
    have hd : now ≤ deadline := by
      have : (0 : Int) ≤ (N : Int) := Int.ofNat_nonneg N
      push_cast at ht
      omega
    rw [createInstanceLoop_step seq (seq (k - 1)) now deadline k h0 hd]
    have hres := ih seq (now + 1) deadline (k + 1) (by omega)
      (by
        intro j hj
        have := hin (j + 1) (by omega)
        have e : k - 1 + (j + 1) = k + 1 - 1 + j := by omega
        rwa [e] at this)
      (by
        have e : k - 1 + (N + 1) = k + 1 - 1 + N := by omega
        rwa [e] at hterm)
      (by push_cast at ht ⊢; omega)
    simp only [Nat.add_sub_cancel] at hres
    rw [hres]
    simp only [Prod.mk.injEq]
    constructor
    · congr 1
      omega
    · omega

/-- If every observation is still in progress, the loop runs until the
deadline elapses and returns the last fetched observation: with deadline
`now + n`, it performs `n + 1` further fetches, ending at `seq (k + n)`. -/
lemma createInstanceLoop_deadline_escape :
    ∀ (n : Nat) (seq : Nat → String) (i : String) (now : Int) (k : Nat),
    inProgressState i = true →
    (∀ j, inProgressState (seq j) = true) →
    createInstanceLoop seq i now (now + n) k = (seq (k + n), k + n + 1) := by
  intro n
  induction n with
  | zero =>
    intro seq i now k hi hall
    push_cast
    rw [createInstanceLoop_step seq i now (now + 0) k hi (by omega)]
    rw [createInstanceLoop_deadline seq (seq k) (now + 1) (now + 0) (k + 1)
      (hall k) (by omega)]
    simp
  | succ n ih =>
    intro seq i now k hi hall
    have hd : now ≤ now + ((n : Int) + 1) := by omega
    have e : now + ((n + 1 : Nat) : Int) = (now + 1) + (n : Int) := by
      push_cast
      ring
    rw [e]
    rw [createInstanceLoop_step seq i now ((now + 1) + (n : Int)) k hi (by omega)]
    rw [ih seq (seq k) (now + 1) (k + 1) (hall k) hall]
    have e1 : k + 1 + n = k + (n + 1) := by omega
    rw [e1]

/-- Claim C1 (code bug): the known strategies return the fixed durations
the claim states — `continue` the negative sentinel `-1`, `pause` 60
seconds, `block` 3600 seconds — but for every other string the code does
not raise the unknown-strategy configuration error: the raise of
`UnknownAsyncStrategy` with a single argument fails inside
`APIException.__init__` (which requires five), so a `TypeError`
propagates in place of the configuration error the claim (and the spec)
describe. -/
theorem async_deadline_unknown_strategy_raises_type_error :
    (calculateAsyncDeadline ASYNC_CONTINUE = .ok (-1) ∧ (-1 : Int) < 0) ∧
    calculateAsyncDeadline ASYNC_PAUSE = .ok 60 ∧
    calculateAsyncDeadline ASYNC_BLOCK = .ok 3600 ∧
    (∀ s : String, s ≠ ASYNC_CONTINUE → s ≠ ASYNC_PAUSE → s ≠ ASYNC_BLOCK →
      calculateAsyncDeadline s = .error (.typeError
        ("APIException.__init__() missing 4 required positional arguments: "
          ++ "method, url, status_code, and text"))) := by
  refine ⟨⟨rfl, by decide⟩, rfl, rfl, ?_⟩
  intro s h1 h2 h3
  simp [calculateAsyncDeadline, h1, h2, h3]

/-- Witness for C1: at the failing input "bogus" the policy yields the
`TypeError` from the broken constructor call, not the configuration
error. -/
theorem async_deadline_unknown_strategy_raises_type_error_witness :
    calculateAsyncDeadline "bogus" = .error (.typeError
      ("APIException.__init__() missing 4 required positional arguments: "
        ++ "method, url, status_code, and text")) := by
  have h := async_deadline_unknown_strategy_raises_type_error.2.2.2 "bogus"
    (by decide) (by decide) (by decide)
  simpa using h

/-- Claim C2: for the await loop of `create_instance`, if the observation
sequence is in progress `N` times and then terminal, with `N` seconds of
sleeping still before the deadline, the loop performs exactly `N + 1`
fetches (the initial POST response counting as the first) and returns the
terminal snapshot; and if every observation is still in progress, the loop
stops once the deadline elapses and returns the last-observed snapshot
(still in progress) rather than raising. -/
theorem create_instance_await_engine :
    (∀ (seq : Nat → String) (now deadline : Int) (N : Nat),
      (∀ j, j < N → inProgressState (seq j) = true) →
      inProgressState (seq N) = false →
      now + N ≤ deadline →
      createInstanceLoop seq (seq 0) now deadline 1 = (seq N, N + 1)) ∧
    (∀ (seq : Nat → String) (now : Int) (dur : Nat),
      (∀ j, inProgressState (seq j) = true) →
      createInstanceLoop seq (seq 0) now (now + dur) 1 = (seq (1 + dur), dur + 2) ∧
        inProgressState (createInstanceLoop seq (seq 0) now (now + dur) 1).1 = true) := by
  constructor
  · intro seq now deadline N hin hterm ht
    have h := createInstanceLoop_reaches_terminal N seq now deadline 1 (by omega)
      (by simpa using hin) (by simpa using hterm) ht
    simpa [Nat.add_comm] using h
  · intro seq now dur hall
    have h := createInstanceLoop_deadline_escape dur seq (seq 0) now 1 (hall 0) hall
    refine ⟨by rw [h]; congr 1; omega, ?_⟩
    rw [h]
    exact hall (1 + dur)

/-- Witness for C2: the spec scenario `["initial", "creating", "creating",
"created"]` under strategy `block` (deadline 3600 seconds from now)
performs 4 fetches and returns the "created" snapshot; and an
always-"creating" sequence under a 60-second deadline returns the
last-observed "creating" snapshot after 62 fetches. -/
theorem create_instance_await_engine_witness :
    createInstanceLoop
      (fun j => if j = 0 then "initial" else if j < 3 then "creating" else "created")
      "initial" 0 3600 1 = ("created", 4) ∧
    createInstanceLoop (fun _ => "creating") "creating" 0 60 1 = ("creating", 62) := by
  constructor
  · have h := create_instance_await_engine.1
      (fun j => if j = 0 then "initial" else if j < 3 then "creating" else "created")
      0 3600 3 (by decide) (by decide) (by norm_num)
    simpa using h
  · have h := (create_instance_await_engine.2 (fun _ => "creating") 0 60
      (fun _ => rfl)).1
    simpa using h

/-- Claim C3: under the `continue` strategy the deadline duration is the
negative sentinel `-1`, so both the `create_instance` and the
`allocate_network` await loops return the snapshot already obtained from
the mutating request after exactly one fetch, with no sleep and no second
fetch, regardless of the snapshot's state. -/
theorem continue_strategy_single_fetch :
    calculateAsyncDeadline ASYNC_CONTINUE = .ok (-1) ∧
    (∀ (fetch : Nat → String) (i : String) (now : Int),
      createInstanceLoop fetch i now (now + (-1)) 1 = (i, 1)) ∧
    (∀ (fetch : Nat → String) (n : String) (now : Int),
      allocateNetworkLoop fetch n now (now + (-1)) 1 = (n, 1)) := by
  refine ⟨rfl, ?_, ?_⟩
  · intro fetch i now
    rw [createInstanceLoop]
    rcases h : inProgressState i with _ | _ <;> simp [h]
  · intro fetch n now
    rw [allocateNetworkLoop]
    rcases h : inProgressState n with _ | _ <;> simp [h]

/-- Outcome of one `_actual_request_url` call inside `Client._request_url`
(apiclient.py): a successful response, an `UnauthenticatedException`, a
`DependenciesNotReadyException` (HTTP 406), or any other `APIException`
(which `_request_url` does not handle). -/
inductive AttemptResult where
  | ok (resp : Nat)
  | unauth
  | depNotReady
  | apiErr
deriving DecidableEq, Repr

/-- Outcome of one `Client._authenticate` call: either a fresh credential,
or an `UnauthenticatedException` (non-200 from the auth endpoint). -/
inductive AuthResult where
  | ok
  | unauth
deriving DecidableEq, Repr

/-- The failure kinds that can propagate out of `Client._request_url`. -/
inductive RequestFailure where
  | unauth
  | depNotReady
  | apiErr
deriving DecidableEq, Repr

/-- Result of running the retry structure of `Client._request_url`: the
returned response or propagated failure, together with the number of
`_actual_request_url` attempts, `_authenticate` refreshes, and
`time.sleep(1)` calls performed. -/
structure ReqOutcome where
  result : Except RequestFailure Nat
  attempts : Nat
  refreshes : Nat
  sleeps : Nat
deriving Repr

/-- The `while True` retry structure of `Client._request_url`
(apiclient.py).  `attempt j` is the outcome of the j-th
`_actual_request_url` call and `auth j` the outcome of the j-th
`_authenticate` call; `deadline` is computed once, before the loop, from
the client's async strategy; `a`, `r` and `s` count attempts, refreshes
and sleeps already performed.  An `UnauthenticatedException` from the
first call of an iteration triggers one `_authenticate` and one retry; a
`DependenciesNotReadyException` (from either call) is re-raised past the
deadline and otherwise causes a one-second sleep and another iteration;
any other `APIException` propagates. -/
def requestUrlLoop (attempt : Nat → AttemptResult) (auth : Nat → AuthResult)
    (now deadline : Int) (a r s : Nat) : ReqOutcome :=
  match attempt a with
  | .ok v => ⟨.ok v, a + 1, r, s⟩
  | .apiErr => ⟨.error .apiErr, a + 1, r, s⟩
  | .depNotReady =>
    if _h : now > deadline then ⟨.error .depNotReady, a + 1, r, s⟩
    else requestUrlLoop attempt auth (now + 1) deadline (a + 1) r (s + 1)
  | .unauth =>
    match auth r with
    | .unauth => ⟨.error .unauth, a + 1, r + 1, s⟩
    | .ok =>
      match attempt (a + 1) with
      | .ok v => ⟨.ok v, a + 2, r + 1, s⟩
      | .apiErr => ⟨.error .apiErr, a + 2, r + 1, s⟩
      | .unauth => ⟨.error .unauth, a + 2, r + 1, s⟩
      | .depNotReady =>
        if _h : now > deadline then ⟨.error .depNotReady, a + 2, r + 1, s⟩
        else requestUrlLoop attempt auth (now + 1) deadline (a + 2) (r + 1) (s + 1)
termination_by (deadline + 1 - now).toNat
decreasing_by all_goals omega

/-- Unfolding lemma: a dependency-not-ready failure before the deadline
causes a one-second sleep and a retry of the same request. -/
lemma requestUrlLoop_dep_retry (attempt : Nat → AttemptResult)
    (auth : Nat → AuthResult) (now deadline : Int) (a r s : Nat)
    (h : attempt a = .depNotReady) (hd : now ≤ deadline) :
    requestUrlLoop attempt auth now deadline a r s =
      requestUrlLoop attempt auth (now + 1) deadline (a + 1) r (s + 1) := by
  rw [requestUrlLoop, h]
  simp
  omega

/-- Unfolding lemma: a dependency-not-ready failure past the deadline is
re-raised to the caller. -/
lemma requestUrlLoop_dep_raise (attempt : Nat → AttemptResult)
    (auth : Nat → AuthResult) (now deadline : Int) (a r s : Nat)
    (h : attempt a = .depNotReady) (hd : now > deadline) :
    requestUrlLoop attempt auth now deadline a r s =
      ⟨.error .depNotReady, a + 1, r, s⟩ := by
  rw [requestUrlLoop, h]
  simp [hd]

/-- Unfolding lemma: a successful attempt returns at once. -/
lemma requestUrlLoop_ok (attempt : Nat → AttemptResult)
    (auth : Nat → AuthResult) (now deadline : Int) (a r s : Nat) (v : Nat)
    (h : attempt a = .ok v) :
    requestUrlLoop attempt auth now deadline a r s = ⟨.ok v, a + 1, r, s⟩ := by
  rw [requestUrlLoop, h]

/-- Claim C4: inside `_request_url`, a dependency-not-ready failure before
the single per-request deadline causes a one-second sleep and a retry of
the same request, one past the deadline is re-raised to the caller, and in
the `pause` scenario (60-second budget, three dependency-not-ready
failures, fourth attempt successful) the wrapper sleeps one second three
times, performs no credential refresh, and returns the successful
response. -/
theorem dependency_retry_wrapper :
    (∀ (attempt : Nat → AttemptResult) (auth : Nat → AuthResult)
      (now deadline : Int) (a r s : Nat),
      attempt a = .depNotReady → now ≤ deadline →
      requestUrlLoop attempt auth now deadline a r s =
        requestUrlLoop attempt auth (now + 1) deadline (a + 1) r (s + 1)) ∧
    (∀ (attempt : Nat → AttemptResult) (auth : Nat → AuthResult)
      (now deadline : Int) (a r s : Nat),
      attempt a = .depNotReady → now > deadline →
      requestUrlLoop attempt auth now deadline a r s =
        ⟨.error .depNotReady, a + 1, r, s⟩) ∧
    (∀ (auth : Nat → AuthResult) (now : Int) (v : Nat),
      calculateAsyncDeadline ASYNC_PAUSE = .ok 60 ∧
      requestUrlLoop (fun a => if a < 3 then .depNotReady else .ok v) auth
        now (now + 60) 0 0 0 = ⟨.ok v, 4, 0, 3⟩) := by
  refine ⟨requestUrlLoop_dep_retry, requestUrlLoop_dep_raise, ?_⟩
  intro auth now v
  refine ⟨rfl, ?_⟩
  rw [requestUrlLoop_dep_retry _ auth now (now + 60) 0 0 0 (by norm_num) (by omega)]
  rw [requestUrlLoop_dep_retry _ auth (now + 1) (now + 60) 1 0 1 (by norm_num) (by omega)]
  have e1 : now + 1 + 1 = now + 2 := by ring
  rw [e1]
  norm_num
  rw [requestUrlLoop_dep_retry _ auth (now + 2) (now + 60) 2 0 2 (by norm_num) (by omega)]
  have e2 : now + 2 + 1 = now + 3 := by ring
  rw [e2]
  norm_num
  rw [requestUrlLoop_ok _ auth (now + 3) (now + 60) 3 0 3 v (by norm_num)]

/-- Witness for C4: concrete instances of the retry step, the re-raise
past the deadline, and the `pause` scenario. -/
theorem dependency_retry_wrapper_witness :
    requestUrlLoop (fun _ => .depNotReady) (fun _ => .ok) 0 60 0 0 0 =
      requestUrlLoop (fun _ => .depNotReady) (fun _ => .ok) 1 60 1 0 1 ∧
    requestUrlLoop (fun _ => .depNotReady) (fun _ => .ok) 61 60 5 0 5 =
      ⟨.error .depNotReady, 6, 0, 5⟩ ∧
    requestUrlLoop (fun a => if a < 3 then .depNotReady else .ok 7)
      (fun _ => .ok) 0 60 0 0 0 = ⟨.ok 7, 4, 0, 3⟩ := by
  refine ⟨?_, ?_, ?_⟩
  · exact dependency_retry_wrapper.1 _ _ 0 60 0 0 0 rfl (by norm_num)
  · exact dependency_retry_wrapper.2.1 _ _ 61 60 5 0 5 rfl (by norm_num)
  · exact (dependency_retry_wrapper.2.2 (fun _ => .ok) 0 7).2

/-- Claim C5: inside `_request_url`, an unauthenticated failure triggers
exactly one credential refresh followed by exactly one retry of the same
request; if the retry fails unauthenticated again, or the refresh itself
fails, the unauthenticated failure propagates to the caller with no
further refresh attempted. -/
theorem auth_refresh_once :
    (∀ (attempt : Nat → AttemptResult) (auth : Nat → AuthResult)
      (now deadline : Int) (a r s : Nat) (v : Nat),
      attempt a = .unauth → auth r = .ok → attempt (a + 1) = .ok v →
      requestUrlLoop attempt auth now deadline a r s = ⟨.ok v, a + 2, r + 1, s⟩) ∧
    (∀ (attempt : Nat → AttemptResult) (auth : Nat → AuthResult)
      (now deadline : Int) (a r s : Nat),
      attempt a = .unauth → auth r = .ok → attempt (a + 1) = .unauth →
      requestUrlLoop attempt auth now deadline a r s =
        ⟨.error .unauth, a + 2, r + 1, s⟩) ∧
    (∀ (attempt : Nat → AttemptResult) (auth : Nat → AuthResult)
      (now deadline : Int) (a r s : Nat),
      attempt a = .unauth → auth r = .unauth →
      requestUrlLoop attempt auth now deadline a r s =
        ⟨.error .unauth, a + 1, r + 1, s⟩) := by
  refine ⟨?_, ?_, ?_⟩
  · intro attempt auth now deadline a r s v h1 h2 h3
    rw [requestUrlLoop, h1, h2, h3]
  · intro attempt auth now deadline a r s h1 h2 h3
    rw [requestUrlLoop, h1, h2, h3]
  · intro attempt auth now deadline a r s h1 h2
    rw [requestUrlLoop, h1, h2]

/-- Witness for C5: concrete instances of the refresh-and-retry success,
the second unauthenticated failure, and the failing refresh. -/
theorem auth_refresh_once_witness :
    requestUrlLoop (fun a => if a = 0 then .unauth else .ok 5) (fun _ => .ok)
      0 3600 0 0 0 = ⟨.ok 5, 2, 1, 0⟩ ∧
    requestUrlLoop (fun _ => .unauth) (fun _ => .ok) 0 3600 0 0 0 =
      ⟨.error .unauth, 2, 1, 0⟩ ∧
    requestUrlLoop (fun _ => .unauth) (fun _ => .unauth) 0 3600 0 0 0 =
      ⟨.error .unauth, 1, 1, 0⟩ := by
  refine ⟨?_, ?_, ?_⟩
  · exact auth_refresh_once.1 _ _ 0 3600 0 0 0 5 rfl rfl rfl
  · exact auth_refresh_once.2.1 _ _ 0 3600 0 0 0 rfl rfl rfl
  · exact auth_refresh_once.2.2 _ _ 0 3600 0 0 0 rfl rfl

/-- The adaptive chunk-size rule shared by `Client.send_upload_file`
(apiclient.py) and `upload_artifact_with_progress_file_like_object`
(util.py): `int(buffer_size * 3.0 / elapsed)` clamped below by 4096 and
above by 2 MiB.  Elapsed wall-clock time is modelled as a rational;
Python's `int()` truncation is modelled as the floor, which agrees with it
on the nonnegative quotients produced by a positive elapsed time (and the
lower clamp makes any difference on negative quotients irrelevant). -/
def adaptBufferSize (bufferSize : Nat) (elapsed : ℚ) : Nat :=
  min (2 * 1024 * 1024) (max (4 * 1024) (⌊(bufferSize : ℚ) * 3 / elapsed⌋).toNat)

/-- Observable actions of an upload loop: a successful chunk send of
`size` bytes starting at byte offset `offset`, or a
`truncate_upload`-plus-`seek` back to `offset` after a failed send. -/
inductive UploadEvent where
  | sent (offset size : Nat)
  | truncated (offset : Nat)
deriving DecidableEq, Repr

/-- Result of `Client.send_upload_file`: the events performed, whether the
final `APIException` was re-raised after too many retries, and the local
`total` byte counter at exit. -/
structure UploadRun where
  events : List UploadEvent
  raised : Bool
  total : Nat
deriving DecidableEq, Repr

/-- The chunk loop of `Client.send_upload_file` (apiclient.py).  The
file-like object is `content` (one `Nat` per byte); reading happens at
position `total`, since the reader's position always equals `total` at the
top of the loop (they start equal, advance together on success, and
`flo.seek(total)` restores the equality after a failure).  `send j` is the
outcome of the j-th `send_upload` call — `some remoteTotal` for a 200
response (whose body `send_upload_file` ignores), `none` for an
`APIException` — and `elapsed j` the observed wall-clock duration of that
call.  Note the loop never compares `total` with the remote-reported
total. -/
def sendUploadFileLoop (send : Nat → Option Nat) (elapsed : Nat → ℚ)
    (content : List Nat) (bufferSize total retries sendIdx : Nat) : UploadRun :=
  if _hd : ((content.drop total).take bufferSize).length = 0 then
    ⟨[], false, total⟩
  else
    match send sendIdx with
    | some _ =>
      let run := sendUploadFileLoop send elapsed content
        (adaptBufferSize bufferSize (elapsed sendIdx))
        (total + ((content.drop total).take bufferSize).length) 0 (sendIdx + 1)
      ⟨.sent total ((content.drop total).take bufferSize).length :: run.events,
        run.raised, run.total⟩
    | none =>
      if _h2 : retries + 1 > 5 then ⟨[], true, total⟩
      else
        let run := sendUploadFileLoop send elapsed content 4096 total
          (retries + 1) (sendIdx + 1)
        ⟨.truncated total :: run.events, run.raised, run.total⟩
termination_by (content.length + 1 - total) * 7 + (6 - retries)
decreasing_by
all_goals
  have e : ((content.drop total).take bufferSize).length =
      min bufferSize (content.length - total) := by
    simp
  omega

/-- Outcome of `upload_artifact_with_progress_file_like_object` (util.py):
normal completion, the re-raised `APIException` after too many retries, or
the `sys.exit(1)` taken when the local byte count disagrees with the
remote-reported total. -/
inductive PUploadOutcome where
  | completed (total : Nat)
  | raisedApi (total : Nat)
  | exitMismatch (localTotal remoteTotal : Nat)
deriving DecidableEq, Repr

/-- Result of the progress-bar upload helper: events plus outcome. -/
structure PUploadRun where
  events : List UploadEvent
  outcome : PUploadOutcome
deriving DecidableEq, Repr

/-- The chunk loop of `upload_artifact_with_progress_file_like_object`
(util.py).  Same shape as `sendUploadFileLoop`, except that the value
returned by `send_upload` is kept as `remote_total` and, after a
successful send, `total != remote_total` causes `sys.exit(1)`. -/
def uploadArtifactLoop (send : Nat → Option Nat) (elapsed : Nat → ℚ)
    (content : List Nat) (bufferSize total retries sendIdx : Nat) : PUploadRun :=
  if _hd : ((content.drop total).take bufferSize).length = 0 then
    ⟨[], .completed total⟩
  else
    match send sendIdx with
    | some remoteTotal =>
      if total + ((content.drop total).take bufferSize).length ≠ remoteTotal then
        ⟨[.sent total ((content.drop total).take bufferSize).length],
          .exitMismatch (total + ((content.drop total).take bufferSize).length)
            remoteTotal⟩
      else
        let run := uploadArtifactLoop send elapsed content
          (adaptBufferSize bufferSize (elapsed sendIdx))
          (total + ((content.drop total).take bufferSize).length) 0 (sendIdx + 1)
        ⟨.sent total ((content.drop total).take bufferSize).length :: run.events,
          run.outcome⟩
    | none =>
      if _h2 : retries + 1 > 5 then ⟨[], .raisedApi total⟩
      else
        let run := uploadArtifactLoop send elapsed content 4096 total
          (retries + 1) (sendIdx + 1)
        ⟨.truncated total :: run.events, run.outcome⟩
termination_by (content.length + 1 - total) * 7 + (6 - retries)
decreasing_by
all_goals
  have e : ((content.drop total).take bufferSize).length =
      min bufferSize (content.length - total) := by
    simp
  omega

/-- Unfolding lemma: an empty read ends `send_upload_file` normally. -/
lemma sendUploadFileLoop_done (send : Nat → Option Nat) (elapsed : Nat → ℚ)
    (content : List Nat) (bufferSize total retries sendIdx : Nat)
    (h : ((content.drop total).take bufferSize).length = 0) :
    sendUploadFileLoop send elapsed content bufferSize total retries sendIdx =
      ⟨[], false, total⟩ := by
  rw [sendUploadFileLoop]
  simp [h]

/-- Unfolding lemma: a successful send appends the chunk, advances `total`,
adapts the chunk size and resets the retry counter to zero. -/
lemma sendUploadFileLoop_success (send : Nat → Option Nat) (elapsed : Nat → ℚ)
    (content : List Nat) (bufferSize total retries sendIdx : Nat)
    (remoteTotal : Nat)
    (h : ((content.drop total).take bufferSize).length ≠ 0)
    (hs : send sendIdx = some remoteTotal) :
    sendUploadFileLoop send elapsed content bufferSize total retries sendIdx =
      ⟨.sent total ((content.drop total).take bufferSize).length ::
          (sendUploadFileLoop send elapsed content
            (adaptBufferSize bufferSize (elapsed sendIdx))
            (total + ((content.drop total).take bufferSize).length) 0
            (sendIdx + 1)).events,
        (sendUploadFileLoop send elapsed content
          (adaptBufferSize bufferSize (elapsed sendIdx))
          (total + ((content.drop total).take bufferSize).length) 0
          (sendIdx + 1)).raised,
        (sendUploadFileLoop send elapsed content
          (adaptBufferSize bufferSize (elapsed sendIdx))
          (total + ((content.drop total).take bufferSize).length) 0
          (sendIdx + 1)).total⟩ := by
  rw [sendUploadFileLoop, dif_neg h]
  split
  · rfl
  · rename_i heq
    rw [hs] at heq
    cases heq

/-- Unfolding lemma: a failed send with at most five consecutive failures
truncates the remote upload to `total`, seeks back, resets the chunk size
to 4096 and resumes with the retry counter incremented. -/
lemma sendUploadFileLoop_fail_retry (send : Nat → Option Nat) (elapsed : Nat → ℚ)
    (content : List Nat) (bufferSize total retries sendIdx : Nat)
    (h : ((content.drop total).take bufferSize).length ≠ 0)
    (hs : send sendIdx = none) (hr : retries + 1 ≤ 5) :
    sendUploadFileLoop send elapsed content bufferSize total retries sendIdx =
      ⟨.truncated total ::
          (sendUploadFileLoop send elapsed content 4096 total (retries + 1)
            (sendIdx + 1)).events,
        (sendUploadFileLoop send elapsed content 4096 total (retries + 1)
          (sendIdx + 1)).raised,
        (sendUploadFileLoop send elapsed content 4096 total (retries + 1)
          (sendIdx + 1)).total⟩ := by
  rw [sendUploadFileLoop, dif_neg h]
  split
  · rename_i x heq
    rw [hs] at heq
    cases heq
  · rw [dif_neg (by omega : ¬retries + 1 > 5)]

/-- Unfolding lemma: a sixth consecutive failed send re-raises the
`APIException`. -/
lemma sendUploadFileLoop_fail_raise (send : Nat → Option Nat) (elapsed : Nat → ℚ)
    (content : List Nat) (bufferSize total retries sendIdx : Nat)
    (h : ((content.drop total).take bufferSize).length ≠ 0)
    (hs : send sendIdx = none) (hr : retries + 1 > 5) :
    sendUploadFileLoop send elapsed content bufferSize total retries sendIdx =
      ⟨[], true, total⟩ := by
  rw [sendUploadFileLoop, dif_neg h]
  split
  · rename_i x heq
    rw [hs] at heq
    cases heq
  · rw [dif_pos hr]

/-- Unfolding lemma: an empty read ends the progress-bar upload helper
normally. -/
lemma uploadArtifactLoop_done (send : Nat → Option Nat) (elapsed : Nat → ℚ)
    (content : List Nat) (bufferSize total retries sendIdx : Nat)
    (h : ((content.drop total).take bufferSize).length = 0) :
    uploadArtifactLoop send elapsed content bufferSize total retries sendIdx =
      ⟨[], .completed total⟩ := by
  rw [uploadArtifactLoop]
  simp [h]

/-- Unfolding lemma: in the progress-bar helper, a successful send whose
remote-reported total disagrees with the local count exits fatally at
once. -/
lemma uploadArtifactLoop_mismatch (send : Nat → Option Nat) (elapsed : Nat → ℚ)
    (content : List Nat) (bufferSize total retries sendIdx : Nat)
    (remoteTotal : Nat)
    (h : ((content.drop total).take bufferSize).length ≠ 0)
    (hs : send sendIdx = some remoteTotal)
    (hm : total + ((content.drop total).take bufferSize).length ≠ remoteTotal) :
    uploadArtifactLoop send elapsed content bufferSize total retries sendIdx =
      ⟨[.sent total ((content.drop total).take bufferSize).length],
        .exitMismatch (total + ((content.drop total).take bufferSize).length)
          remoteTotal⟩ := by
  rw [uploadArtifactLoop, dif_neg h]
  split
  · rename_i x heq
    rw [hs] at heq
    injection heq with hx
    subst hx
    rw [if_pos hm]
  · rename_i heq
    rw [hs] at heq
    cases heq

/-- Unfolding lemma: in the progress-bar helper, a successful send whose
remote-reported total agrees with the local count continues the loop with
the retry counter reset to zero. -/
lemma uploadArtifactLoop_success (send : Nat → Option Nat) (elapsed : Nat → ℚ)
    (content : List Nat) (bufferSize total retries sendIdx : Nat)
    (remoteTotal : Nat)
    (h : ((content.drop total).take bufferSize).length ≠ 0)
    (hs : send sendIdx = some remoteTotal)
    (hm : total + ((content.drop total).take bufferSize).length = remoteTotal) :
    uploadArtifactLoop send elapsed content bufferSize total retries sendIdx =
      ⟨.sent total ((content.drop total).take bufferSize).length ::
          (uploadArtifactLoop send elapsed content
            (adaptBufferSize bufferSize (elapsed sendIdx))
            (total + ((content.drop total).take bufferSize).length) 0
            (sendIdx + 1)).events,
        (uploadArtifactLoop send elapsed content
          (adaptBufferSize bufferSize (elapsed sendIdx))
          (total + ((content.drop total).take bufferSize).length) 0
          (sendIdx + 1)).outcome⟩ := by
  rw [uploadArtifactLoop, dif_neg h]
  split
  · rename_i x heq
    rw [hs] at heq
    injection heq with hx
    subst hx
    rw [if_neg (by omega : ¬total + ((content.drop total).take bufferSize).length ≠ remoteTotal)]
  · rename_i heq
    rw [hs] at heq
    cases heq

/-- Unfolding lemma: in the progress-bar helper, a failed send with at most
five consecutive failures truncates, seeks back, resets the chunk size to
4096 and resumes with the retry counter incremented. -/
lemma uploadArtifactLoop_fail_retry (send : Nat → Option Nat) (elapsed : Nat → ℚ)
    (content : List Nat) (bufferSize total retries sendIdx : Nat)
    (h : ((content.drop total).take bufferSize).length ≠ 0)
    (hs : send sendIdx = none) (hr : retries + 1 ≤ 5) :
    uploadArtifactLoop send elapsed content bufferSize total retries sendIdx =
      ⟨.truncated total ::
          (uploadArtifactLoop send elapsed content 4096 total (retries + 1)
            (sendIdx + 1)).events,
        (uploadArtifactLoop send elapsed content 4096 total (retries + 1)
          (sendIdx + 1)).outcome⟩ := by
  rw [uploadArtifactLoop, dif_neg h]
  split
  · rename_i x heq
    rw [hs] at heq
    cases heq
  · rw [dif_neg (by omega : ¬retries + 1 > 5)]

/-- Unfolding lemma: in the progress-bar helper, a sixth consecutive failed
send re-raises the `APIException`. -/
lemma uploadArtifactLoop_fail_raise (send : Nat → Option Nat) (elapsed : Nat → ℚ)
    (content : List Nat) (bufferSize total retries sendIdx : Nat)
    (h : ((content.drop total).take bufferSize).length ≠ 0)
    (hs : send sendIdx = none) (hr : retries + 1 > 5) :
    uploadArtifactLoop send elapsed content bufferSize total retries sendIdx =
      ⟨[], .raisedApi total⟩ := by
  rw [uploadArtifactLoop, dif_neg h]
  split
  · rename_i x heq
    rw [hs] at heq
    cases heq
  · rw [dif_pos hr]

/-- Claim C6 counterexample: in `Client.send_upload_file` the remote
sink's reported total is ignored, so an upload whose sink reports a total
(999) different from the bytes sent locally (1) still completes normally
instead of aborting: the mismatch-abort invariant does not hold for this
entry point. -/
theorem sendfile_ignores_remote_total :
    sendUploadFileLoop (fun _ => some 999) (fun _ => 1) [0] 4096 0 0 0 =
      ⟨[.sent 0 1], false, 1⟩ ∧ (999 : Nat) ≠ 1 := by
  constructor
  · rw [sendUploadFileLoop_success (fun _ => some 999) (fun _ => 1) [0]
      4096 0 0 0 999 (by decide) rfl]
    simp [sendUploadFileLoop_done]
  · decide

/-- Claim C6 (amended): in the progress-bar upload helper
`upload_artifact_with_progress_file_like_object` — though not in
`Client.send_upload_file`, which ignores the remote total — every
successful chunk send is followed by a comparison of the local byte count
with the remote-reported total: a mismatch aborts the upload immediately
as a fatal failure with no retry, and agreement lets the loop continue. -/
theorem upload_mismatch_aborts_progress_helper :
    (∀ (send : Nat → Option Nat) (elapsed : Nat → ℚ) (content : List Nat)
      (bufferSize total retries sendIdx remoteTotal : Nat),
      ((content.drop total).take bufferSize).length ≠ 0 →
      send sendIdx = some remoteTotal →
      total + ((content.drop total).take bufferSize).length ≠ remoteTotal →
      uploadArtifactLoop send elapsed content bufferSize total retries sendIdx =
        ⟨[.sent total ((content.drop total).take bufferSize).length],
          .exitMismatch (total + ((content.drop total).take bufferSize).length)
            remoteTotal⟩) ∧
    (∀ (send : Nat → Option Nat) (elapsed : Nat → ℚ) (content : List Nat)
      (bufferSize total retries sendIdx remoteTotal : Nat),
      ((content.drop total).take bufferSize).length ≠ 0 →
      send sendIdx = some remoteTotal →
      total + ((content.drop total).take bufferSize).length = remoteTotal →
      uploadArtifactLoop send elapsed content bufferSize total retries sendIdx =
        ⟨.sent total ((content.drop total).take bufferSize).length ::
            (uploadArtifactLoop send elapsed content
              (adaptBufferSize bufferSize (elapsed sendIdx))
              (total + ((content.drop total).take bufferSize).length) 0
              (sendIdx + 1)).events,
          (uploadArtifactLoop send elapsed content
            (adaptBufferSize bufferSize (elapsed sendIdx))
            (total + ((content.drop total).take bufferSize).length) 0
            (sendIdx + 1)).outcome⟩) :=
  ⟨uploadArtifactLoop_mismatch, uploadArtifactLoop_success⟩

/-- Witness for the amended C6: concretely, a sink reporting total 5 after
a 1-byte send aborts with the mismatch failure, and a sink reporting the
correct total 1 lets the upload complete. -/
theorem upload_mismatch_aborts_progress_helper_witness :
    uploadArtifactLoop (fun _ => some 5) (fun _ => 1) [0] 4096 0 0 0 =
      ⟨[.sent 0 1], .exitMismatch 1 5⟩ ∧
    uploadArtifactLoop (fun _ => some 1) (fun _ => 1) [0] 4096 0 0 0 =
      ⟨[.sent 0 1], .completed 1⟩ := by
  constructor
  · have h := upload_mismatch_aborts_progress_helper.1 (fun _ => some 5)
      (fun _ => 1) [0] 4096 0 0 0 5 (by decide) rfl (by decide)
    rw [h]
    decide
  · have h := upload_mismatch_aborts_progress_helper.2 (fun _ => some 1)
      (fun _ => 1) [0] 4096 0 0 0 1 (by decide) rfl (by decide)
    rw [h]
    simp [uploadArtifactLoop_done]

/-- Claim C7: in both chunked-upload entry points, a failed chunk send
increments the retry counter and, once the counter exceeds 5, re-raises
the failure; otherwise the remote upload is truncated to the last
known-good offset `total`, the reader is seeked back to that offset, the
chunk size is reset to 4096 and the loop resumes; the counter resets to 0
on every successful send; and concretely a sink failing on 6 consecutive
attempts makes both loops raise after 5 truncate-and-retry rounds. -/
theorem upload_retry_policy :
    (∀ (send : Nat → Option Nat) (elapsed : Nat → ℚ) (content : List Nat)
      (bufferSize total retries sendIdx : Nat),
      ((content.drop total).take bufferSize).length ≠ 0 →
      send sendIdx = none → retries + 1 > 5 →
      sendUploadFileLoop send elapsed content bufferSize total retries sendIdx =
        ⟨[], true, total⟩) ∧
    (∀ (send : Nat → Option Nat) (elapsed : Nat → ℚ) (content : List Nat)
      (bufferSize total retries sendIdx : Nat),
      ((content.drop total).take bufferSize).length ≠ 0 →
      send sendIdx = none → retries + 1 ≤ 5 →
      sendUploadFileLoop send elapsed content bufferSize total retries sendIdx =
        ⟨.truncated total ::
            (sendUploadFileLoop send elapsed content 4096 total (retries + 1)
              (sendIdx + 1)).events,
          (sendUploadFileLoop send elapsed content 4096 total (retries + 1)
            (sendIdx + 1)).raised,
          (sendUploadFileLoop send elapsed content 4096 total (retries + 1)
            (sendIdx + 1)).total⟩) ∧
    (∀ (send : Nat → Option Nat) (elapsed : Nat → ℚ) (content : List Nat)
      (bufferSize total retries sendIdx remoteTotal : Nat),
      ((content.drop total).take bufferSize).length ≠ 0 →
      send sendIdx = some remoteTotal →
      sendUploadFileLoop send elapsed content bufferSize total retries sendIdx =
        ⟨.sent total ((content.drop total).take bufferSize).length ::
            (sendUploadFileLoop send elapsed content
              (adaptBufferSize bufferSize (elapsed sendIdx))
              (total + ((content.drop total).take bufferSize).length) 0
              (sendIdx + 1)).events,
          (sendUploadFileLoop send elapsed content
            (adaptBufferSize bufferSize (elapsed sendIdx))
            (total + ((content.drop total).take bufferSize).length) 0
            (sendIdx + 1)).raised,
          (sendUploadFileLoop send elapsed content
            (adaptBufferSize bufferSize (elapsed sendIdx))
            (total + ((content.drop total).take bufferSize).length) 0
            (sendIdx + 1)).total⟩) ∧
    (∀ (send : Nat → Option Nat) (elapsed : Nat → ℚ) (content : List Nat)
      (bufferSize total retries sendIdx : Nat),
      ((content.drop total).take bufferSize).length ≠ 0 →
      send sendIdx = none → retries + 1 > 5 →
      uploadArtifactLoop send elapsed content bufferSize total retries sendIdx =
        ⟨[], .raisedApi total⟩) ∧
    (∀ (send : Nat → Option Nat) (elapsed : Nat → ℚ) (content : List Nat)
      (bufferSize total retries sendIdx : Nat),
      ((content.drop total).take bufferSize).length ≠ 0 →
      send sendIdx = none → retries + 1 ≤ 5 →
      uploadArtifactLoop send elapsed content bufferSize total retries sendIdx =
        ⟨.truncated total ::
            (uploadArtifactLoop send elapsed content 4096 total (retries + 1)
              (sendIdx + 1)).events,
          (uploadArtifactLoop send elapsed content 4096 total (retries + 1)
            (sendIdx + 1)).outcome⟩) ∧
    sendUploadFileLoop (fun _ => none) (fun _ => 1) [0] 4096 0 0 0 =
      ⟨List.replicate 5 (.truncated 0), true, 0⟩ ∧
    uploadArtifactLoop (fun _ => none) (fun _ => 1) [0] 4096 0 0 0 =
      ⟨List.replicate 5 (.truncated 0), .raisedApi 0⟩ := by
  refine ⟨sendUploadFileLoop_fail_raise, sendUploadFileLoop_fail_retry,
    sendUploadFileLoop_success, uploadArtifactLoop_fail_raise,
    uploadArtifactLoop_fail_retry, ?_, ?_⟩
  · have h0 := sendUploadFileLoop_fail_retry (fun _ => none) (fun _ => 1) [0]
      4096 0 0 0 (by decide) rfl (by norm_num)
    have h1 := sendUploadFileLoop_fail_retry (fun _ => none) (fun _ => 1) [0]
      4096 0 1 1 (by decide) rfl (by norm_num)
    have h2 := sendUploadFileLoop_fail_retry (fun _ => none) (fun _ => 1) [0]
      4096 0 2 2 (by decide) rfl (by norm_num)
    have h3 := sendUploadFileLoop_fail_retry (fun _ => none) (fun _ => 1) [0]
      4096 0 3 3 (by decide) rfl (by norm_num)
    have h4 := sendUploadFileLoop_fail_retry (fun _ => none) (fun _ => 1) [0]
      4096 0 4 4 (by decide) rfl (by norm_num)
    have h5 := sendUploadFileLoop_fail_raise (fun _ => none) (fun _ => 1) [0]
      4096 0 5 5 (by decide) rfl (by norm_num)
    simp only [h0, h1, h2, h3, h4, h5, Nat.reduceAdd]
    decide
  · have h0 := uploadArtifactLoop_fail_retry (fun _ => none) (fun _ => 1) [0]
      4096 0 0 0 (by decide) rfl (by norm_num)
    have h1 := uploadArtifactLoop_fail_retry (fun _ => none) (fun _ => 1) [0]
      4096 0 1 1 (by decide) rfl (by norm_num)
    have h2 := uploadArtifactLoop_fail_retry (fun _ => none) (fun _ => 1) [0]
      4096 0 2 2 (by decide) rfl (by norm_num)
    have h3 := uploadArtifactLoop_fail_retry (fun _ => none) (fun _ => 1) [0]
      4096 0 3 3 (by decide) rfl (by norm_num)
    have h4 := uploadArtifactLoop_fail_retry (fun _ => none) (fun _ => 1) [0]
      4096 0 4 4 (by decide) rfl (by norm_num)
    have h5 := uploadArtifactLoop_fail_raise (fun _ => none) (fun _ => 1) [0]
      4096 0 5 5 (by decide) rfl (by norm_num)
    simp only [h0, h1, h2, h3, h4, h5, Nat.reduceAdd]
    decide

/-- Witness for C7: the retry-ceiling, truncate-and-resume and
counter-reset equations exercised at concrete inputs. -/
theorem upload_retry_policy_witness :
    sendUploadFileLoop (fun _ => none) (fun _ => 1) [0] 4096 0 5 0 =
      ⟨[], true, 0⟩ ∧
    uploadArtifactLoop (fun _ => none) (fun _ => 1) [0] 4096 0 5 0 =
      ⟨[], .raisedApi 0⟩ ∧
    sendUploadFileLoop (fun _ => some 1) (fun _ => 1) [0] 4096 0 3 0 =
      ⟨.sent 0 1 ::
          (sendUploadFileLoop (fun _ => some 1) (fun _ => 1) [0]
            (adaptBufferSize 4096 ((fun _ : Nat => (1 : ℚ)) 0)) (0 + 1) 0
            (0 + 1)).events,
        (sendUploadFileLoop (fun _ => some 1) (fun _ => 1) [0]
          (adaptBufferSize 4096 ((fun _ : Nat => (1 : ℚ)) 0)) (0 + 1) 0
          (0 + 1)).raised,
        (sendUploadFileLoop (fun _ => some 1) (fun _ => 1) [0]
          (adaptBufferSize 4096 ((fun _ : Nat => (1 : ℚ)) 0)) (0 + 1) 0
          (0 + 1)).total⟩ := by
  refine ⟨?_, ?_, ?_⟩
  · exact upload_retry_policy.1 (fun _ => none) (fun _ => 1) [0] 4096 0 5 0
      (by decide) rfl (by norm_num)
  · exact upload_retry_policy.2.2.2.1 (fun _ => none) (fun _ => 1) [0] 4096 0 5 0
      (by decide) rfl (by norm_num)
  · have h := upload_retry_policy.2.2.1 (fun _ => some 1) (fun _ => 1) [0]
      4096 0 3 0 1 (by decide) rfl
    simpa using h

/-- Claim C8: the adaptive chunk size computed from any observed elapsed
time (old size times 3 divided by the elapsed seconds) is clamped into the
closed interval from 4096 bytes to 2 MiB. -/
theorem chunk_size_adaptation_bounds :
    ∀ (bufferSize : Nat) (elapsed : ℚ), 0 < elapsed →
      4 * 1024 ≤ adaptBufferSize bufferSize elapsed ∧
      adaptBufferSize bufferSize elapsed ≤ 2 * 1024 * 1024 := by
  intro bufferSize elapsed _he
  unfold adaptBufferSize
  omega

/-- Witness for C8: the bounds at the concrete input of a 4096-byte chunk
that took 3 seconds. -/
theorem chunk_size_adaptation_bounds_witness :
    (0 : ℚ) < 3 ∧ 4 * 1024 ≤ adaptBufferSize 4096 3 ∧
      adaptBufferSize 4096 3 ≤ 2 * 1024 * 1024 :=
  ⟨by norm_num, chunk_size_adaptation_bounds 4096 3 (by norm_num)⟩

/-- How one `get_blob_data` streaming attempt inside `artifact_download`
(commandline/artifact.py) ends: normal end of stream (`done = True`), a
`urllib3 NewConnectionError`, or one of the mid-stream failures
(`ConnectionResetError`, `http.client.IncompleteRead`,
`urllib3 ProtocolError`, `requests ChunkedEncodingError`). -/
inductive DownloadEnding where
  | complete
  | newConnErr
  | resetErr
deriving DecidableEq, Repr

/-- One streaming attempt of `artifact_download`: the sizes of the chunks
delivered before the attempt ended, and how it ended. -/
structure DownloadAttempt where
  chunks : List Nat
  ending : DownloadEnding
deriving DecidableEq, Repr

/-- How the download loop of `artifact_download` exits: success, the
`sys.exit(1)` after more than 2 `NewConnectionError` failures, the
`sys.exit(1)` when a mid-stream failure delivered no bytes in the current
attempt, the `sys.exit(1)` when the final total differs from the expected
size, or exhaustion of the supplied attempt script while not yet done. -/
inductive DownloadResult where
  | ok (total : Nat) (offsets : List Nat)
  | fatalConnFailures (offsets : List Nat)
  | fatalNoProgress (offsets : List Nat)
  | sizeMismatch (expected got : Nat) (offsets : List Nat)
  | outOfScript (total : Nat) (offsets : List Nat)
deriving DecidableEq, Repr

/-- The `while not done` loop of `artifact_download`
(commandline/artifact.py), followed by the final `total != size` check.
Each iteration requests `get_blob_data(blob_uuid, offset=total)` — the
offsets actually requested are accumulated in `offsets` — receives
`attempt.chunks` (advancing `total` by their sum, which is
`bytes_in_attempt`), and then: on normal end of stream performs the final
size check; on `NewConnectionError` increments `connFailures` and exits
fatally once it exceeds 2; on a mid-stream failure exits fatally if no
bytes were received in this attempt and otherwise re-enters the loop with
the advanced offset. -/
def artifactDownloadLoop (size : Nat) :
    List DownloadAttempt → Nat → Nat → List Nat → DownloadResult
  | [], total, _connFailures, offsets => .outOfScript total offsets
  | a :: rest, total, connFailures, offsets =>
    match a.ending with
    | .complete =>
      if total + a.chunks.sum ≠ size then
        .sizeMismatch size (total + a.chunks.sum) (offsets ++ [total])
      else
        .ok (total + a.chunks.sum) (offsets ++ [total])
    | .newConnErr =>
      if connFailures + 1 > 2 then
        .fatalConnFailures (offsets ++ [total])
      else
        artifactDownloadLoop size rest (total + a.chunks.sum)
          (connFailures + 1) (offsets ++ [total])
    | .resetErr =>
      if a.chunks.sum = 0 then
        .fatalNoProgress (offsets ++ [total])
      else
        artifactDownloadLoop size rest (total + a.chunks.sum) connFailures
          (offsets ++ [total])

/-- Claim C9 counterexample: a transient connection-level failure
(`NewConnectionError`) during which zero bytes were received does not
abort the download — the loop retries, and with the next attempt
delivering all 5 expected bytes the download completes successfully.  The
claim that every zero-byte transient connection-level failure is fatal is
therefore false of the code. -/
theorem download_zero_byte_conn_failure_not_fatal :
    artifactDownloadLoop 5 [⟨[], .newConnErr⟩, ⟨[5], .complete⟩] 0 0 [] =
      .ok 5 [0, 0] := by
  decide

/-- Claim C9 (amended): in `artifact_download`, a mid-stream failure
(reset, incomplete read, protocol error) with zero bytes received in the
current attempt aborts fatally, while one after some bytes causes the loop
to re-enter requesting the advanced offset; a connection-establishment
failure (`NewConnectionError`) is instead retried regardless of progress
until more than 2 have occurred, after which it aborts fatally; and on
completion a total different from the expected size is reported as a fatal
integrity error while an equal total succeeds. -/
theorem download_retry_and_integrity :
    (∀ (size : Nat) (a : DownloadAttempt) (rest : List DownloadAttempt)
      (total connFailures : Nat) (offsets : List Nat),
      a.ending = .resetErr → a.chunks.sum = 0 →
      artifactDownloadLoop size (a :: rest) total connFailures offsets =
        .fatalNoProgress (offsets ++ [total])) ∧
    (∀ (size : Nat) (a : DownloadAttempt) (rest : List DownloadAttempt)
      (total connFailures : Nat) (offsets : List Nat),
      a.ending = .resetErr → a.chunks.sum ≠ 0 →
      artifactDownloadLoop size (a :: rest) total connFailures offsets =
        artifactDownloadLoop size rest (total + a.chunks.sum) connFailures
          (offsets ++ [total])) ∧
    (∀ (size : Nat) (a : DownloadAttempt) (rest : List DownloadAttempt)
      (total connFailures : Nat) (offsets : List Nat),
      a.ending = .newConnErr → connFailures + 1 ≤ 2 →
      artifactDownloadLoop size (a :: rest) total connFailures offsets =
        artifactDownloadLoop size rest (total + a.chunks.sum)
          (connFailures + 1) (offsets ++ [total])) ∧
    (∀ (size : Nat) (a : DownloadAttempt) (rest : List DownloadAttempt)
      (total connFailures : Nat) (offsets : List Nat),
      a.ending = .newConnErr → connFailures + 1 > 2 →
      artifactDownloadLoop size (a :: rest) total connFailures offsets =
        .fatalConnFailures (offsets ++ [total])) ∧
    (∀ (size : Nat) (a : DownloadAttempt) (rest : List DownloadAttempt)
      (total connFailures : Nat) (offsets : List Nat),
      a.ending = .complete → total + a.chunks.sum ≠ size →
      artifactDownloadLoop size (a :: rest) total connFailures offsets =
        .sizeMismatch size (total + a.chunks.sum) (offsets ++ [total])) ∧
    (∀ (size : Nat) (a : DownloadAttempt) (rest : List DownloadAttempt)
      (total connFailures : Nat) (offsets : List Nat),
      a.ending = .complete → total + a.chunks.sum = size →
      artifactDownloadLoop size (a :: rest) total connFailures offsets =
        .ok (total + a.chunks.sum) (offsets ++ [total])) := by
  refine ⟨?_, ?_, ?_, ?_, ?_, ?_⟩
  · intro size a rest total connFailures offsets he hz
    rw [artifactDownloadLoop, he, if_pos hz]
  · intro size a rest total connFailures offsets he hz
    rw [artifactDownloadLoop, he, if_neg hz]
  · intro size a rest total connFailures offsets he hc
    rw [artifactDownloadLoop, he, if_neg (by omega : ¬connFailures + 1 > 2)]
  · intro size a rest total connFailures offsets he hc
    rw [artifactDownloadLoop, he, if_pos hc]
  · intro size a rest total connFailures offsets he hm
    rw [artifactDownloadLoop, he, if_pos hm]
  · intro size a rest total connFailures offsets he hm
    rw [artifactDownloadLoop, he, if_neg (by omega : ¬total + a.chunks.sum ≠ size)]

/-- Witness for the amended C9: each exit and resume equation exercised at
a concrete input — a zero-byte mid-stream failure aborts; a 3-byte partial
delivery resumes at offset 3; a third connection-establishment failure
aborts; a complete stream of 2 of the 5 expected bytes reports the
integrity mismatch. -/
theorem download_retry_and_integrity_witness :
    artifactDownloadLoop 5 [⟨[], .resetErr⟩] 0 0 [] = .fatalNoProgress [0] ∧
    artifactDownloadLoop 5 [⟨[3], .resetErr⟩] 0 0 [] =
      artifactDownloadLoop 5 [] 3 0 [0] ∧
    artifactDownloadLoop 5 [⟨[], .newConnErr⟩] 0 2 [] =
      .fatalConnFailures [0] ∧
    artifactDownloadLoop 5 [⟨[2], .complete⟩] 0 0 [] =
      .sizeMismatch 5 2 [0] ∧
    artifactDownloadLoop 5 [⟨[5], .complete⟩] 0 0 [] = .ok 5 [0] := by
  refine ⟨?_, ?_, ?_, ?_, ?_⟩
  · exact download_retry_and_integrity.1 5 ⟨[], .resetErr⟩ [] 0 0 [] rfl rfl
  · have h := download_retry_and_integrity.2.1 5 ⟨[3], .resetErr⟩ [] 0 0 []
      rfl (by decide)
    simpa using h
  · exact download_retry_and_integrity.2.2.2.1 5 ⟨[], .newConnErr⟩ [] 0 2 []
      rfl (by norm_num)
  · have h := download_retry_and_integrity.2.2.2.2.1 5 ⟨[2], .complete⟩ [] 0 0 []
      rfl (by decide)
    simpa using h
  · have h := download_retry_and_integrity.2.2.2.2.2 5 ⟨[5], .complete⟩ [] 0 0 []
      rfl (by decide)
    simpa using h

/-- Python truthiness of the optional `label_name` argument of
`Client.snapshot_instance`: `None` and the empty string are falsy, any
other string is truthy. -/
def pyTruthyStr : Option String → Bool
  | none => false
  | some s => !(s == "")

/-- The strategy actually used for the snapshot-await deadline in
`Client.snapshot_instance` (apiclient.py): the client's configured
strategy, overridden to `block` when `if label_name:` is taken. -/
def snapshotEffectiveStrategy (clientStrategy : String)
    (labelName : Option String) : String :=
  if pyTruthyStr labelName then ASYNC_BLOCK else clientStrategy

/-- Claim C10 counterexample: `label_name` equal to the empty string is
not `None`, yet `if label_name:` is falsy in Python, so the deadline is
computed from the client's configured strategy (`pause`, 60 seconds) and
not from `block` (3600 seconds). -/
theorem snapshot_empty_label_uses_client_strategy :
    snapshotEffectiveStrategy ASYNC_PAUSE (some "") = ASYNC_PAUSE ∧
    calculateAsyncDeadline
        (snapshotEffectiveStrategy ASYNC_PAUSE (some "")) = .ok 60 ∧
    calculateAsyncDeadline
        (snapshotEffectiveStrategy ASYNC_PAUSE (some "")) ≠ .ok 3600 := by
  refine ⟨rfl, rfl, ?_⟩
  intro hcon
  have h2 : (Except.ok (60 : Int) : Except DeadlineError Int) = .ok 3600 := hcon
  simp at h2

/-- Claim C10 (amended): for every call to `snapshot_instance` with a
truthy `label_name` (non-`None` and non-empty), the snapshot-await
deadline is computed from the `block` strategy (3600 seconds), overriding
the client's configured strategy; when `label_name` is `None` (or the
falsy empty string), the client's configured strategy is used. -/
theorem snapshot_label_forces_block :
    (∀ (clientStrategy s : String), s ≠ "" →
      snapshotEffectiveStrategy clientStrategy (some s) = ASYNC_BLOCK ∧
      calculateAsyncDeadline
          (snapshotEffectiveStrategy clientStrategy (some s)) = .ok 3600) ∧
    (∀ clientStrategy : String,
      snapshotEffectiveStrategy clientStrategy none = clientStrategy) ∧
    (∀ clientStrategy : String,
      snapshotEffectiveStrategy clientStrategy (some "") = clientStrategy) := by
  refine ⟨?_, fun _ => rfl, fun _ => rfl⟩
  intro clientStrategy s hs
  have ht : pyTruthyStr (some s) = true := by
    simp [pyTruthyStr, hs]
  constructor
  · simp [snapshotEffectiveStrategy, ht]
  · simp [snapshotEffectiveStrategy, ht]
    rfl

/-- Witness for the amended C10: a concrete non-empty label forces the
`block` deadline of 3600 seconds even for a `pause`-configured client. -/
theorem snapshot_label_forces_block_witness :
    snapshotEffectiveStrategy ASYNC_PAUSE (some "mylabel") = ASYNC_BLOCK ∧
    calculateAsyncDeadline
        (snapshotEffectiveStrategy ASYNC_PAUSE (some "mylabel")) = .ok 3600 :=
  snapshot_label_forces_block.1 ASYNC_PAUSE "mylabel" (by decide)

end ShakenFistClient
